import Mathlib

set_option maxHeartbeats 1000000

/-!
Shallow embedding of the `mcp-web-a11y` MCP server (src/index.ts).

The server exposes two tools, `check_accessibility` and `simulate_colorblind`,
over the MCP request/response protocol.  Each tool drives a headless browser:
the colorblind tool injects an in-page color transform and takes a screenshot,
the accessibility tool runs the axe-core engine and reports violations.

Modelling conventions:
* JavaScript numbers are modelled as `Option ℚ`: `some q` is a finite number,
  `none` models NaN (and `undefined` read from a missing array index, which in
  the arithmetic used here behaves like NaN).  Decimal literals of the source
  are modelled as exact rationals.
* `Math.round x` is `⌊x + 1/2⌋` (JavaScript rounds half toward positive
  infinity).
* Effectful browser operations are modelled as a list of `Action` steps run in
  order; an oracle `fails : ℕ → Option String` says whether the k-th awaited
  operation of a handler rejects, and with which error message.  Closing a
  browser is modelled as always succeeding.
* `JSON.stringify` is modelled by `Json.stringify` (field order preserved,
  string escaping and pretty-printing elided: no claim depends on them).
-/

namespace WebA11y

/-! ## JavaScript numeric model -/

/-- A JavaScript number: `some q` is a finite value, `none` models NaN
(and an `undefined` array read used in arithmetic). -/
abbrev JsNum := Option ℚ

def jadd : JsNum → JsNum → JsNum
  | some a, some b => some (a + b)
  | _, _ => none

def jmul : JsNum → JsNum → JsNum
  | some a, some b => some (a * b)
  | _, _ => none

/-- Division; every division in the source has the literal 255 as divisor,
so the zero-divisor behaviour of JS (Infinity) never arises. -/
def jdiv : JsNum → JsNum → JsNum
  | some a, some b => some (a / b)
  | _, _ => none

/-- Model of `Math.round`: round half toward positive infinity; NaN propagates. -/
def jround : JsNum → JsNum
  | some q => some ((⌊q + 1/2⌋ : ℤ) : ℚ)
  | none => none

/-- JS array indexing `a[i]`: reading past the end yields `undefined`,
which the surrounding arithmetic treats as a non-number. -/
def jsIndex : List JsNum → ℕ → JsNum
  | [], _ => none
  | x :: _, 0 => x
  | _ :: xs, n + 1 => jsIndex xs n

/-! ## RGB values and color-string parsing (function `parseColor`) -/

/-- The `RGB` interface of the source: three JS numbers. -/
structure RGB where
  r : JsNum
  g : JsNum
  b : JsNum
deriving DecidableEq

/-- JS whitespace class `\s` (ASCII part; the Unicode spaces never occur in
the color strings handled here). -/
def isJsWhitespace (c : Char) : Bool :=
  c = ' ' || c = '\t' || c = '\n' || c = '\r' || c = '\x0b' || c = '\x0c'

/-- Model of `color.toLowerCase().replace(/\s/g, "")` of the source. -/
def normalizeColor (s : String) : String :=
  ⟨(s.data.map Char.toLower).filter (fun c => !isJsWhitespace c)⟩

/-- Remove the first occurrence of `pat` from a character list
(JS `String.prototype.replace` with a string pattern and empty replacement). -/
def removeFirstAux (pat : List Char) : List Char → List Char
  | [] => []
  | l@(c :: rest) =>
      if pat.isPrefixOf l then l.drop pat.length else c :: removeFirstAux pat rest

/-- Model of `s.replace(pat, "")` for a string pattern: removes the first occurrence. -/
def replaceFirst (s pat : String) : String :=
  ⟨removeFirstAux pat.data s.data⟩

def digitsVal (l : List Char) : ℚ :=
  l.foldl (fun a c => a * 10 + ((c.toNat - 48 : ℕ) : ℚ)) 0

/-- The JS `Number` coercion, on the argument shapes produced by `parseColor`
(lowercased, whitespace-free): the empty string is 0, an optionally signed
decimal literal is its value, anything else is NaN.  (Exponent and hex forms
of `Number` are elided; no claim depends on them.) -/
def jsNumber (s : String) : JsNum :=
  match s.data with
  | [] => some 0
  | l =>
    let sgn : ℚ := match l with | '-' :: _ => -1 | _ => 1
    let l1 := match l with | '-' :: rest => rest | '+' :: rest => rest | _ => l
    let ip := l1.takeWhile Char.isDigit
    let rest := l1.dropWhile Char.isDigit
    match rest with
    | [] => if ip = [] then none else some (sgn * digitsVal ip)
    | '.' :: fp =>
        if fp.all Char.isDigit ∧ (ip ≠ [] ∨ fp ≠ []) then
          some (sgn * (digitsVal ip + digitsVal fp / (10 : ℚ) ^ fp.length))
        else none
    | _ => none

def hexDigitVal (c : Char) : Option ℕ :=
  if c.isDigit then some (c.toNat - 48)
  else if 'a' ≤ c ∧ c ≤ 'f' then some (c.toNat - 87)
  else none

/-- Model of `parseInt(s, 16)`: value of the longest hex-digit prefix, NaN when that
prefix is empty.  (The strings reaching it are already lowercased.) -/
def parseIntHex (s : String) : JsNum :=
  let ds := s.data.takeWhile (fun c => (hexDigitVal c).isSome)
  if ds = [] then none
  else some ((ds.foldl (fun a c => a * 16 + (hexDigitVal c).getD 0) 0 : ℕ) : ℚ)

/-- JS `s.substr(start, len)`. -/
def jsSubstr (s : String) (start len : ℕ) : String :=
  ⟨(s.data.drop start).take len⟩

/-- JS `s.startsWith(pre)`. -/
def jsStartsWith (s pre : String) : Bool :=
  pre.data.isPrefixOf s.data

def splitCommaAux : List Char → List Char → List String
  | [], acc => [⟨acc.reverse⟩]
  | ',' :: rest, acc => (⟨acc.reverse⟩ : String) :: splitCommaAux rest []
  | c :: rest, acc => splitCommaAux rest (c :: acc)

/-- JS `s.split(",")`. -/
def jsSplitComma (s : String) : List String :=
  splitCommaAux s.data []

/-- The source helper `parseColor`: parse a CSS color string into an `RGB`,
defaulting to black when the format is not recognized. -/
def parseColor (color : String) : RGB :=
  let c := normalizeColor color
  if jsStartsWith c "rgba(" || jsStartsWith c "rgb(" then
    let values :=
      (jsSplitComma (replaceFirst (replaceFirst (replaceFirst c "rgba(") "rgb(") ")")).map jsNumber
    ⟨jsIndex values 0, jsIndex values 1, jsIndex values 2⟩
  else if jsStartsWith c "#" then
    let hex := replaceFirst c "#"
    ⟨parseIntHex (jsSubstr hex 0 2), parseIntHex (jsSubstr hex 2 2), parseIntHex (jsSubstr hex 4 2)⟩
  else
    ⟨some 0, some 0, some 0⟩

/-- Rendering of a JS number inside a template string; `window.simulate`
always produces integers (or NaN), so only those cases matter. -/
def jsNumToString : JsNum → String
  | none => "NaN"
  | some q => if q.den = 1 then toString q.num else toString q

/-- The source helper `rgbToString`. -/
def rgbToString (rgb : RGB) : String :=
  "rgb(" ++ jsNumToString rgb.r ++ ", " ++ jsNumToString rgb.g ++ ", " ++ jsNumToString rgb.b ++ ")"

/-! ## The injected colorblind simulation -/

/-- The injected `multiply`: row vector times row-major 3×3 matrix. -/
def multiply (a b : List JsNum) : List JsNum :=
  [ jadd (jadd (jmul (jsIndex a 0) (jsIndex b 0)) (jmul (jsIndex a 1) (jsIndex b 3)))
      (jmul (jsIndex a 2) (jsIndex b 6)),
    jadd (jadd (jmul (jsIndex a 0) (jsIndex b 1)) (jmul (jsIndex a 1) (jsIndex b 4)))
      (jmul (jsIndex a 2) (jsIndex b 7)),
    jadd (jadd (jmul (jsIndex a 0) (jsIndex b 2)) (jmul (jsIndex a 1) (jsIndex b 5)))
      (jmul (jsIndex a 2) (jsIndex b 8)) ]

/-- The injected `colorBlindnessMatrices` object: property lookup by type
name, `none` for an unknown key (JS `undefined`). -/
def colorBlindnessMatrices (t : String) : Option (List JsNum) :=
  if t = "protanopia" then
    some [some (567/1000), some (433/1000), some 0,
          some (558/1000), some (442/1000), some 0,
          some 0, some (242/1000), some (758/1000)]
  else if t = "deuteranopia" then
    some [some (625/1000), some (375/1000), some 0,
          some (7/10), some (3/10), some 0,
          some 0, some (3/10), some (7/10)]
  else if t = "tritanopia" then
    some [some (95/100), some (5/100), some 0,
          some 0, some (433/1000), some (567/1000),
          some 0, some (475/1000), some (525/1000)]
  else none

/-- The injected `window.simulate`.  An unknown type makes the matrix lookup
yield `undefined` and `multiply` then throws a TypeError inside the page;
that failure is modelled as `none`. -/
def window_simulate (rgb : RGB) (t : String) : Option RGB :=
  match colorBlindnessMatrices t with
  | none => none
  | some matrix =>
      let result := multiply [jdiv rgb.r (some 255), jdiv rgb.g (some 255), jdiv rgb.b (some 255)] matrix
      some ⟨jround (jmul (jsIndex result 0) (some 255)),
            jround (jmul (jsIndex result 1) (some 255)),
            jround (jmul (jsIndex result 2) (some 255))⟩

/-- Written from the words of the specification claim: component `i` of the
output is `round(255 * v i)` with `v i = Σ_j (rgb_j / 255) * M[3*j + i]`,
`M` the row-major 3×3 matrix of the requested type. -/
def simulateSpec (rgb : RGB) (t : String) : Option RGB :=
  (colorBlindnessMatrices t).map fun M =>
    let comp := jsIndex [rgb.r, rgb.g, rgb.b]
    let v := fun i =>
      jadd (jadd (jmul (jdiv (comp 0) (some 255)) (jsIndex M (3 * 0 + i)))
        (jmul (jdiv (comp 1) (some 255)) (jsIndex M (3 * 1 + i))))
        (jmul (jdiv (comp 2) (some 255)) (jsIndex M (3 * 2 + i)))
    ⟨jround (jmul (some 255) (v 0)), jround (jmul (some 255) (v 1)), jround (jmul (some 255) (v 2))⟩

/-- Computed `color` and `backgroundColor` of one DOM element, as read by the
injected loop from `getComputedStyle`. -/
structure ElementStyle where
  color : String
  backgroundColor : String
deriving DecidableEq

/-- One element of the injected `elements.forEach` body: each of the two
properties is rewritten through `window.simulate` unless its computed value is
the transparent sentinel.  `none` models a TypeError thrown by the unknown-type
path, which rejects the whole `page.evaluate`. -/
def transformElement (t : String) (el : ElementStyle) : Option ElementStyle :=
  match (if el.color = "rgba(0, 0, 0, 0)" then some el.color
         else (window_simulate (parseColor el.color) t).map rgbToString),
        (if el.backgroundColor = "rgba(0, 0, 0, 0)" then some el.backgroundColor
         else (window_simulate (parseColor el.backgroundColor) t).map rgbToString) with
  | some c, some b => some ⟨c, b⟩
  | _, _ => none

/-- The injected per-element loop over all elements of the page. -/
def applySimulation (t : String) : List ElementStyle → Option (List ElementStyle)
  | [] => some []
  | el :: rest =>
      match transformElement t el, applySimulation t rest with
      | some e, some es => some (e :: es)
      | _, _ => none

/-- Written from the words of the specification claim: the transform applied
to one computed property value, elements whose computed value is
`rgba(0, 0, 0, 0)` being left alone. -/
def transformPropSpec (t : String) (c : String) : String :=
  if c = "rgba(0, 0, 0, 0)" then c
  else
    match simulateSpec (parseColor c) t with
    | some r => rgbToString r
    | none => c

/-! ## URL rewriting

Both handlers navigate to
`args.url.replace(/^(https?:\/\/)?(www\.)?/, "https://www.")`:
the anchored, possibly empty match of an optional scheme followed by an
optional `www.` is replaced by the fixed prefix. -/

/-- Length of the (possibly empty) match of `^(https?:\/\/)?(www\.)?` at the
start of the character list. -/
def urlMatchLen (l : List Char) : ℕ :=
  let schemeLen :=
    if ("https://".data).isPrefixOf l then 8
    else if ("http://".data).isPrefixOf l then 7
    else 0
  let wwwLen := if ("www.".data).isPrefixOf (l.drop schemeLen) then 4 else 0
  schemeLen + wwwLen

/-- The `urlToUse` computation of both handlers. -/
def rewriteUrl (u : String) : String :=
  ⟨"https://www.".data ++ u.data.drop (urlMatchLen u.data)⟩

/-- Written from the words of the specification claim: strip a leading
`http://` or `https://` scheme, if any. -/
def dropScheme (l : List Char) : List Char :=
  if ("https://".data).isPrefixOf l then l.drop 8
  else if ("http://".data).isPrefixOf l then l.drop 7
  else l

/-- Written from the words of the specification claim: strip a leading
`www.`, if any. -/
def dropWww (l : List Char) : List Char :=
  if ("www.".data).isPrefixOf l then l.drop 4 else l

/-- Written from the words of the specification claim: the argument with any
leading scheme and any leading `www.` replaced by the fixed `https://www.`. -/
def rewriteUrlSpec (u : String) : String :=
  ⟨"https://www.".data ++ dropWww (dropScheme u.data)⟩

/-! ## Browser orchestration model -/

structure LaunchOptions where
  headless : Bool
  args : List String
deriving DecidableEq

structure GotoOptions where
  waitUntil : String
  timeout : ℕ
deriving DecidableEq

/-- One awaited browser operation of a handler. -/
inductive Action where
  | launch (opts : LaunchOptions)
  | newPage
  | setViewport (w h : ℕ)
  | setUserAgent (ua : String)
  | setRequestInterception
  | goto (url : String) (opts : GotoOptions)
  | waitForSelector (sel : String) (timeout : ℕ)
  | sleep (ms : ℕ)
  | evaluateSim (t : String)
  | evaluateAxeSource
  | evaluateAxeRun
  | screenshot (path : String)
  | closeBrowser
deriving DecidableEq

def isLaunch : Action → Bool
  | .launch _ => true
  | _ => false

/-- Run the awaited operations of a try block in order; `fails k` says whether
the k-th operation rejects, and with which message.  Returns the completed
operations and the first error, if any. -/
def runSteps (fails : ℕ → Option String) : List Action → ℕ → List Action × Option String
  | [], _ => ([], none)
  | a :: rest, k =>
      match fails k with
      | some msg => ([], some msg)
      | none =>
          let r := runSteps fails rest (k + 1)
          (a :: r.1, r.2)

/-! ## axe-core results -/

structure AxeNode where
  html : String
  failureSummary : String
deriving DecidableEq

structure AxeViolation where
  impact : String
  description : String
  help : String
  helpUrl : String
  nodes : List AxeNode
deriving DecidableEq

/-- Only the lengths of `passes`, `inapplicable` and `incomplete` are
observed by the handler, hence `List Unit`. -/
structure AxeResults where
  violations : List AxeViolation
  passes : List Unit
  inapplicable : List Unit
  incomplete : List Unit
deriving DecidableEq

/-- What the in-page `window.axe.run` callback resolved with: either a result
object or an object carrying an `error` field (stringified on rethrow). -/
inductive AxeOutcome where
  | errorRes (e : String)
  | ok (r : AxeResults)
deriving DecidableEq

/-- The nondeterministic environment of one tool invocation. -/
structure ServerEnv where
  fails : ℕ → Option String
  axe : AxeOutcome
  timestamp : String
  mcpOutputDir : Option String

/-! ## JSON model -/

inductive Json where
  | str (s : String)
  | num (n : ℤ)
  | arr (l : List Json)
  | obj (l : List (String × Json))

mutual

/-- Model of `JSON.stringify` (field order kept; escaping and the pretty-printing of
the source `JSON.stringify(v, null, 2)` are elided). -/
def Json.stringify : Json → String
  | .str s => "\"" ++ s ++ "\""
  | .num n => toString n
  | .arr l => "[" ++ Json.stringifyList l ++ "]"
  | .obj l => "\x7b" ++ Json.stringifyFields l ++ "\x7d"

def Json.stringifyList : List Json → String
  | [] => ""
  | [j] => Json.stringify j
  | j :: rest => Json.stringify j ++ "," ++ Json.stringifyList rest

def Json.stringifyFields : List (String × Json) → String
  | [] => ""
  | [(k, j)] => "\"" ++ k ++ "\":" ++ Json.stringify j
  | (k, j) :: rest => "\"" ++ k ++ "\":" ++ Json.stringify j ++ "," ++ Json.stringifyFields rest

end

/-- Field lookup in a JSON object. -/
def Json.get? : Json → String → Option Json
  | .obj l, k => (l.find? (fun p => p.1 == k)).map (fun p => p.2)
  | _, _ => none

/-! ## Tool responses and handler runs -/

structure ContentItem where
  type : String
  text : String
deriving DecidableEq

/-- A tool response; the source leaves `isError` absent on success, which is
modelled as `false`. -/
structure ToolResponse where
  content : List ContentItem
  isError : Bool
deriving DecidableEq

structure HandlerResult where
  trace : List Action
  response : ToolResponse

def winUA : String :=
  "Mozilla/5.0 (Windows NT 10.0; Win64; x64) AppleWebKit/537.36 (KHTML, like Gecko) Chrome/120.0.0.0 Safari/537.36"

def macUA : String :=
  "Mozilla/5.0 (Macintosh; Intel Mac OS X 10_15_7) AppleWebKit/537.36 (KHTML, like Gecko) Chrome/120.0.0.0 Safari/537.36"

def cbLaunchOptions : LaunchOptions :=
  ⟨true, ["--no-sandbox", "--disable-setuid-sandbox", "--disable-dev-shm-usage",
          "--disable-accelerated-2d-canvas", "--disable-gpu", "--window-size=1920,1080"]⟩

def a11yLaunchOptions : LaunchOptions :=
  ⟨true, ["--no-sandbox", "--disable-setuid-sandbox", "--disable-dev-shm-usage",
          "--disable-accelerated-2d-canvas", "--disable-gpu", "--window-size=1920,1080",
          "--dns-prefetch-disable"]⟩

/-- The validated arguments of `simulate_colorblind` (`SimulateColorblindArgs`). -/
structure CBArgs where
  url : String
  type : String
  outputPath : Option String
  userAgent : Option String
deriving DecidableEq

/-- The validated arguments of `check_accessibility` (`AnalyzeUrlArgs` after
the ternary defaults of the source). -/
structure A11yArgs where
  url : String
  waitForSelector : Option String
  userAgent : String
deriving DecidableEq

/-- Model of `join(outputDir, ...)` of the source; the segment normalization of the
Node `path.join` is elided (no claim observes the path value). -/
def pathJoin (a b : String) : String := a ++ "/" ++ b

/-- The screenshot path: `MCP_OUTPUT_DIR` or `./output`, joined with
`args.outputPath || "colorblind_<type>.png"` (JS `||`: the empty string also
falls back). -/
def cbOutputPath (env : ServerEnv) (args : CBArgs) : String :=
  pathJoin (env.mcpOutputDir.getD "./output")
    (match args.outputPath with
     | some p => if p = "" then "colorblind_" ++ args.type ++ ".png" else p
     | none => "colorblind_" ++ args.type ++ ".png")

/-- The awaited operations of the `handleColorBlindSimulation` try block,
in source order. -/
def cbTrySteps (env : ServerEnv) (args : CBArgs) : List Action :=
  [ .launch cbLaunchOptions,
    .newPage,
    .setViewport 1920 1080,
    .setUserAgent (match args.userAgent with
                   | some s => if s = "" then winUA else s
                   | none => winUA),
    .setRequestInterception,
    .goto (rewriteUrl args.url) ⟨"networkidle2", 120000⟩,
    .waitForSelector "body" 120000,
    .sleep 5000,
    .evaluateSim args.type,
    .sleep 2000,
    .screenshot (cbOutputPath env args),
    .closeBrowser ]

/-- The awaited operations of the `handleAccessibilityCheck` try block,
in source order.  (The optional `waitForSelector` argument is never used by
the source; the handler always waits for `body`.) -/
def a11yTrySteps (args : A11yArgs) : List Action :=
  [ .launch a11yLaunchOptions,
    .newPage,
    .setViewport 1920 1080,
    .setUserAgent (if args.userAgent = "" then winUA else args.userAgent),
    .goto (rewriteUrl args.url) ⟨"domcontentloaded", 30000⟩,
    .waitForSelector "body" 30000,
    .sleep 5000,
    .evaluateAxeSource,
    .evaluateAxeRun,
    .closeBrowser ]

def nodeJson (n : AxeNode) : Json :=
  .obj [("html", .str n.html), ("failureSummary", .str n.failureSummary)]

def violationJson (v : AxeViolation) : Json :=
  .obj [("impact", .str v.impact), ("description", .str v.description),
        ("help", .str v.help), ("helpUrl", .str v.helpUrl),
        ("nodes", .arr (v.nodes.map nodeJson))]

/-- The JSON body of a `check_accessibility` success response. -/
def a11yBody (env : ServerEnv) (args : A11yArgs) (res : AxeResults) : Json :=
  .obj [("url", .str args.url),
        ("timestamp", .str env.timestamp),
        ("violations", .arr (res.violations.map violationJson)),
        ("passes", .num res.passes.length),
        ("inapplicable", .num res.inapplicable.length),
        ("incomplete", .num res.incomplete.length)]

/-- The JSON body of a `simulate_colorblind` success response. -/
def cbBody (env : ServerEnv) (args : CBArgs) : Json :=
  .obj [("url", .str args.url),
        ("type", .str args.type),
        ("outputPath", .str (cbOutputPath env args)),
        ("timestamp", .str env.timestamp),
        ("message", .str ("Screenshot saved with " ++ args.type ++ " simulation"))]

/-- Body of `handleColorBlindSimulation` after validation: run the try block; on an
error, close the browser when (and only when) the launch completed, and
report the error. -/
def runColorblind (env : ServerEnv) (args : CBArgs) : HandlerResult :=
  let r := runSteps env.fails (cbTrySteps env args) 0
  match r.2 with
  | none =>
      ⟨r.1, ⟨[⟨"text", (cbBody env args).stringify⟩], false⟩⟩
  | some msg =>
      ⟨(if r.1.isEmpty then r.1 else r.1 ++ [Action.closeBrowser]),
       ⟨[⟨"text", "Error simulating color blindness: " ++ msg⟩], true⟩⟩

/-- Body of `handleAccessibilityCheck` after validation: run the try block (whose last
operation closes the browser); afterwards, an `error` field in the axe result
is rethrown and caught by the same catch.  The catch block performs no
browser cleanup. -/
def runA11y (env : ServerEnv) (args : A11yArgs) : HandlerResult :=
  let r := runSteps env.fails (a11yTrySteps args) 0
  match r.2 with
  | some msg =>
      ⟨r.1, ⟨[⟨"text", "Error analyzing URL: " ++ msg⟩], true⟩⟩
  | none =>
      match env.axe with
      | .errorRes e =>
          ⟨r.1, ⟨[⟨"text", "Error analyzing URL: " ++ e⟩], true⟩⟩
      | .ok res =>
          ⟨r.1, ⟨[⟨"text", (a11yBody env args res).stringify⟩], false⟩⟩

/-! ## Request dispatch and validation -/

/-- A JavaScript value as read from an untyped request argument field;
a missing field reads as `vundefined`. -/
inductive JsVal where
  | vstr (s : String)
  | vnum (q : ℚ)
  | vbool (b : Bool)
  | vnull
  | vundefined
deriving DecidableEq

structure RawArgs where
  url : JsVal := .vundefined
  type : JsVal := .vundefined
  outputPath : JsVal := .vundefined
  userAgent : JsVal := .vundefined
  waitForSelector : JsVal := .vundefined

/-- A CallTool request: tool name and the (possibly absent) arguments
object. -/
structure RawRequest where
  name : String
  arguments : Option RawArgs

inductive ErrorCode where
  | methodNotFound
  | invalidParams
deriving DecidableEq

structure McpError where
  code : ErrorCode
  message : String
deriving DecidableEq

/-- Handler `handleColorBlindSimulation`, validation included: a missing arguments
object or a non-string `url` or `type` throws `InvalidParams` before any
browser operation (empty trace).  The non-string `outputPath` and `userAgent`
cases are passed through untyped by the source; a non-string value there is
modelled as absent. -/
def handleColorBlindSimulation (env : ServerEnv) (req : RawRequest) :
    List Action × Except McpError ToolResponse :=
  match req.arguments with
  | none => ([], .error ⟨.invalidParams, "URL and type parameters are required"⟩)
  | some a =>
      match a.url, a.type with
      | .vstr u, .vstr t =>
          let args : CBArgs :=
            ⟨u, t,
             (match a.outputPath with | .vstr s => some s | _ => none),
             (match a.userAgent with | .vstr s => some s | _ => none)⟩
          let r := runColorblind env args
          (r.trace, .ok r.response)
      | _, _ => ([], .error ⟨.invalidParams, "URL and type parameters are required"⟩)

/-- Handler `handleAccessibilityCheck`, validation included: a missing arguments
object or a non-string `url` throws `InvalidParams` before any browser
operation (empty trace). -/
def handleAccessibilityCheck (env : ServerEnv) (req : RawRequest) :
    List Action × Except McpError ToolResponse :=
  match req.arguments with
  | none => ([], .error ⟨.invalidParams, "URL parameter is required"⟩)
  | some a =>
      match a.url with
      | .vstr u =>
          let args : A11yArgs :=
            ⟨u,
             (match a.waitForSelector with | .vstr s => some s | _ => none),
             (match a.userAgent with | .vstr s => s | _ => macUA)⟩
          let r := runA11y env args
          (r.trace, .ok r.response)
      | _ => ([], .error ⟨.invalidParams, "URL parameter is required"⟩)

/-- The CallTool request handler of `setupToolHandlers`. -/
def handleCallTool (env : ServerEnv) (req : RawRequest) :
    List Action × Except McpError ToolResponse :=
  if req.name = "check_accessibility" then handleAccessibilityCheck env req
  else if req.name = "simulate_colorblind" then handleColorBlindSimulation env req
  else ([], .error ⟨.methodNotFound, "Unknown tool: " ++ req.name⟩)

/-- One tool declaration of the ListTools response (name, description, and
the `required` list of its input schema). -/
structure ToolDecl where
  name : String
  description : String
  required : List String
deriving DecidableEq

/-- The ListTools request handler of `setupToolHandlers`: a fixed list. -/
def listedTools : List ToolDecl :=
  [ ⟨"check_accessibility", "Check web accessibility of a given URL using axe-core", ["url"]⟩,
    ⟨"simulate_colorblind", "Simulate how a webpage looks for colorblind users", ["url", "type"]⟩ ]

/-- A benign environment for concrete instantiations: no operation fails,
axe reports an empty result set. -/
def baseEnv : ServerEnv :=
  ⟨fun _ => none, .ok ⟨[], [], [], []⟩, "2025-01-01T00:00:00.000Z", none⟩

/-- A concrete environment in which the navigation step (index 4) of the
accessibility handler rejects. -/
def c2Env : ServerEnv :=
  ⟨fun k => if k = 4 then some "net::ERR_NAME_NOT_RESOLVED at https://www.example.com" else none,
   .ok ⟨[], [], [], []⟩, "2025-01-01T00:00:00.000Z", none⟩

def c2Args : A11yArgs := ⟨"example.com", none, macUA⟩

/-! ## Helper lemmas -/

lemma jsIndex_zero (x : JsNum) (xs : List JsNum) : jsIndex (x :: xs) 0 = x := rfl

lemma jsIndex_succ (x : JsNum) (xs : List JsNum) (n : ℕ) :
    jsIndex (x :: xs) (n + 1) = jsIndex xs n := rfl

lemma jsIndex_one (x0 x1 : JsNum) (xs : List JsNum) :
    jsIndex (x0 :: x1 :: xs) 1 = x1 := rfl

lemma jsIndex_two (x0 x1 x2 : JsNum) (xs : List JsNum) :
    jsIndex (x0 :: x1 :: x2 :: xs) 2 = x2 := rfl

lemma jsIndex_three (x0 x1 x2 x3 : JsNum) (xs : List JsNum) :
    jsIndex (x0 :: x1 :: x2 :: x3 :: xs) 3 = x3 := rfl

lemma jsIndex_four (x0 x1 x2 x3 x4 : JsNum) (xs : List JsNum) :
    jsIndex (x0 :: x1 :: x2 :: x3 :: x4 :: xs) 4 = x4 := rfl

lemma jsIndex_five (x0 x1 x2 x3 x4 x5 : JsNum) (xs : List JsNum) :
    jsIndex (x0 :: x1 :: x2 :: x3 :: x4 :: x5 :: xs) 5 = x5 := rfl

lemma jsIndex_six (x0 x1 x2 x3 x4 x5 x6 : JsNum) (xs : List JsNum) :
    jsIndex (x0 :: x1 :: x2 :: x3 :: x4 :: x5 :: x6 :: xs) 6 = x6 := rfl

lemma jsIndex_seven (x0 x1 x2 x3 x4 x5 x6 x7 : JsNum) (xs : List JsNum) :
    jsIndex (x0 :: x1 :: x2 :: x3 :: x4 :: x5 :: x6 :: x7 :: xs) 7 = x7 := rfl

lemma jsIndex_eight (x0 x1 x2 x3 x4 x5 x6 x7 x8 : JsNum) (xs : List JsNum) :
    jsIndex (x0 :: x1 :: x2 :: x3 :: x4 :: x5 :: x6 :: x7 :: x8 :: xs) 8 = x8 := rfl

lemma matrices_protanopia :
    colorBlindnessMatrices "protanopia" =
      some [some (567/1000), some (433/1000), some 0,
            some (558/1000), some (442/1000), some 0,
            some 0, some (242/1000), some (758/1000)] := rfl

lemma matrices_deuteranopia :
    colorBlindnessMatrices "deuteranopia" =
      some [some (625/1000), some (375/1000), some 0,
            some (7/10), some (3/10), some 0,
            some 0, some (3/10), some (7/10)] := rfl

lemma matrices_tritanopia :
    colorBlindnessMatrices "tritanopia" =
      some [some (95/100), some (5/100), some 0,
            some 0, some (433/1000), some (567/1000),
            some 0, some (475/1000), some (525/1000)] := rfl

lemma jmul_comm (x y : JsNum) : jmul x y = jmul y x := by
  cases x <;> cases y <;> simp [jmul, mul_comm]

/-- Bounds for one output component of the transform: with inputs in
`[0, 255]`, nonnegative coefficients, and column sum at most `53/40`
(the largest column sum among the three matrices), the rounded component
lies in `[0, 338]`. -/
lemma comp_bound (x y z cx cy cz : ℚ)
    (hx0 : 0 ≤ x) (hx1 : x ≤ 255) (hy0 : 0 ≤ y) (hy1 : y ≤ 255)
    (hz0 : 0 ≤ z) (hz1 : z ≤ 255)
    (hcx : 0 ≤ cx) (hcy : 0 ≤ cy) (hcz : 0 ≤ cz)
    (hs : cx + cy + cz ≤ 53/40) :
    0 ≤ ⌊(x / 255 * cx + y / 255 * cy + z / 255 * cz) * 255 + 1/2⌋ ∧
      ⌊(x / 255 * cx + y / 255 * cy + z / 255 * cz) * 255 + 1/2⌋ ≤ 338 := by
  have tx0 : 0 ≤ x / 255 * cx := mul_nonneg (div_nonneg hx0 (by norm_num)) hcx
  have ty0 : 0 ≤ y / 255 * cy := mul_nonneg (div_nonneg hy0 (by norm_num)) hcy
  have tz0 : 0 ≤ z / 255 * cz := mul_nonneg (div_nonneg hz0 (by norm_num)) hcz
  have hxd : x / 255 ≤ 1 := by rw [div_le_one (by norm_num : (0:ℚ) < 255)]; exact hx1
  have hyd : y / 255 ≤ 1 := by rw [div_le_one (by norm_num : (0:ℚ) < 255)]; exact hy1
  have hzd : z / 255 ≤ 1 := by rw [div_le_one (by norm_num : (0:ℚ) < 255)]; exact hz1
  have tx1 : x / 255 * cx ≤ cx := by
    calc x / 255 * cx ≤ 1 * cx := mul_le_mul_of_nonneg_right hxd hcx
    _ = cx := one_mul cx
  have ty1 : y / 255 * cy ≤ cy := by
    calc y / 255 * cy ≤ 1 * cy := mul_le_mul_of_nonneg_right hyd hcy
    _ = cy := one_mul cy
  have tz1 : z / 255 * cz ≤ cz := by
    calc z / 255 * cz ≤ 1 * cz := mul_le_mul_of_nonneg_right hzd hcz
    _ = cz := one_mul cz
  constructor
  · apply Int.le_floor.mpr
    push_cast
    nlinarith
  · have hlt : (x / 255 * cx + y / 255 * cy + z / 255 * cz) * 255 + 1/2 < 339 := by
      nlinarith
    have := Int.floor_lt.mpr (by exact_mod_cast hlt :
      (x / 255 * cx + y / 255 * cy + z / 255 * cz) * 255 + 1/2 < ((339 : ℤ) : ℚ))
    omega

/-! ## Claim C1 -/

/-- C1, counterexample: the transform does not clamp.  On the in-range input
(255, 255, 255) with type `protanopia`, the red component of the result is
287, outside `[0, 255]` — the claim as stated is false. -/
theorem c1_no_clamp_counterexample :
    window_simulate ⟨some 255, some 255, some 255⟩ "protanopia" =
      some ⟨some 287, some 285, some 193⟩ ∧ ¬ ((287 : ℚ) ≤ 255) := by
  constructor
  · simp only [window_simulate, matrices_protanopia, multiply,
      jsIndex_zero, jsIndex_one, jsIndex_two, jsIndex_three, jsIndex_four,
      jsIndex_five, jsIndex_six, jsIndex_seven, jsIndex_eight,
      jdiv, jmul, jadd, jround, Option.some.injEq, RGB.mk.injEq]
    norm_num [Int.floor_eq_iff]
  · norm_num

/-- C1, amended: for every RGB input with components in `[0, 255]` and every
supported type, each component of `window.simulate` is a nonnegative integer,
but it is only bounded by 338 (the matrix column sums exceed 1 and the source
applies no clamp), not by 255. -/
theorem c1_output_range (r g b : ℚ)
    (hr0 : 0 ≤ r) (hr1 : r ≤ 255) (hg0 : 0 ≤ g) (hg1 : g ≤ 255)
    (hb0 : 0 ≤ b) (hb1 : b ≤ 255) (t : String)
    (ht : t = "protanopia" ∨ t = "deuteranopia" ∨ t = "tritanopia") :
    ∃ r' g' b' : ℤ,
      window_simulate ⟨some r, some g, some b⟩ t =
        some ⟨some (r' : ℚ), some (g' : ℚ), some (b' : ℚ)⟩ ∧
      0 ≤ r' ∧ r' ≤ 338 ∧ 0 ≤ g' ∧ g' ≤ 338 ∧ 0 ≤ b' ∧ b' ≤ 338 := by
  rcases ht with rfl | rfl | rfl <;>
    simp only [window_simulate, matrices_protanopia, matrices_deuteranopia,
      matrices_tritanopia, multiply,
      jsIndex_zero, jsIndex_one, jsIndex_two, jsIndex_three, jsIndex_four,
      jsIndex_five, jsIndex_six, jsIndex_seven, jsIndex_eight,
      jdiv, jmul, jadd, jround, Option.some.injEq, RGB.mk.injEq]
  · refine ⟨_, _, _, ⟨⟨rfl, rfl, rfl⟩, ?_, ?_, ?_, ?_, ?_, ?_⟩⟩
    · exact (comp_bound r g b (567/1000) (558/1000) 0 hr0 hr1 hg0 hg1 hb0 hb1
        (by norm_num) (by norm_num) (by norm_num) (by norm_num)).1
    · exact (comp_bound r g b (567/1000) (558/1000) 0 hr0 hr1 hg0 hg1 hb0 hb1
        (by norm_num) (by norm_num) (by norm_num) (by norm_num)).2
    · exact (comp_bound r g b (433/1000) (442/1000) (242/1000) hr0 hr1 hg0 hg1 hb0 hb1
        (by norm_num) (by norm_num) (by norm_num) (by norm_num)).1
    · exact (comp_bound r g b (433/1000) (442/1000) (242/1000) hr0 hr1 hg0 hg1 hb0 hb1
        (by norm_num) (by norm_num) (by norm_num) (by norm_num)).2
    · exact (comp_bound r g b 0 0 (758/1000) hr0 hr1 hg0 hg1 hb0 hb1
        (by norm_num) (by norm_num) (by norm_num) (by norm_num)).1
    · exact (comp_bound r g b 0 0 (758/1000) hr0 hr1 hg0 hg1 hb0 hb1
        (by norm_num) (by norm_num) (by norm_num) (by norm_num)).2
  · refine ⟨_, _, _, ⟨⟨rfl, rfl, rfl⟩, ?_, ?_, ?_, ?_, ?_, ?_⟩⟩
    · exact (comp_bound r g b (625/1000) (7/10) 0 hr0 hr1 hg0 hg1 hb0 hb1
        (by norm_num) (by norm_num) (by norm_num) (by norm_num)).1
    · exact (comp_bound r g b (625/1000) (7/10) 0 hr0 hr1 hg0 hg1 hb0 hb1
        (by norm_num) (by norm_num) (by norm_num) (by norm_num)).2
    · exact (comp_bound r g b (375/1000) (3/10) (3/10) hr0 hr1 hg0 hg1 hb0 hb1
        (by norm_num) (by norm_num) (by norm_num) (by norm_num)).1
    · exact (comp_bound r g b (375/1000) (3/10) (3/10) hr0 hr1 hg0 hg1 hb0 hb1
        (by norm_num) (by norm_num) (by norm_num) (by norm_num)).2
    · exact (comp_bound r g b 0 0 (7/10) hr0 hr1 hg0 hg1 hb0 hb1
        (by norm_num) (by norm_num) (by norm_num) (by norm_num)).1
    · exact (comp_bound r g b 0 0 (7/10) hr0 hr1 hg0 hg1 hb0 hb1
        (by norm_num) (by norm_num) (by norm_num) (by norm_num)).2
  · refine ⟨_, _, _, ⟨⟨rfl, rfl, rfl⟩, ?_, ?_, ?_, ?_, ?_, ?_⟩⟩
    · exact (comp_bound r g b (95/100) 0 0 hr0 hr1 hg0 hg1 hb0 hb1
        (by norm_num) (by norm_num) (by norm_num) (by norm_num)).1
    · exact (comp_bound r g b (95/100) 0 0 hr0 hr1 hg0 hg1 hb0 hb1
        (by norm_num) (by norm_num) (by norm_num) (by norm_num)).2
    · exact (comp_bound r g b (5/100) (433/1000) (475/1000) hr0 hr1 hg0 hg1 hb0 hb1
        (by norm_num) (by norm_num) (by norm_num) (by norm_num)).1
    · exact (comp_bound r g b (5/100) (433/1000) (475/1000) hr0 hr1 hg0 hg1 hb0 hb1
        (by norm_num) (by norm_num) (by norm_num) (by norm_num)).2
    · exact (comp_bound r g b 0 (567/1000) (525/1000) hr0 hr1 hg0 hg1 hb0 hb1
        (by norm_num) (by norm_num) (by norm_num) (by norm_num)).1
    · exact (comp_bound r g b 0 (567/1000) (525/1000) hr0 hr1 hg0 hg1 hb0 hb1
        (by norm_num) (by norm_num) (by norm_num) (by norm_num)).2

/-- C1, witness: the amended range theorem applied at the concrete in-range
input (255, 255, 255) with type `protanopia`. -/
theorem c1_output_range_witness :
    ∃ r' g' b' : ℤ,
      window_simulate ⟨some 255, some 255, some 255⟩ "protanopia" =
        some ⟨some (r' : ℚ), some (g' : ℚ), some (b' : ℚ)⟩ ∧
      0 ≤ r' ∧ r' ≤ 338 ∧ 0 ≤ g' ∧ g' ≤ 338 ∧ 0 ≤ b' ∧ b' ≤ 338 :=
  c1_output_range 255 255 255 (by norm_num) (by norm_num) (by norm_num)
    (by norm_num) (by norm_num) (by norm_num) "protanopia" (Or.inl rfl)

/-! ## Run-model lemmas -/

lemma runSteps_none (f : ℕ → Option String) (l : List Action) :
    ∀ k, (runSteps f l k).2 = none → (runSteps f l k).1 = l := by
  induction l with
  | nil => intro k _; rfl
  | cons a rest ih =>
      intro k h
      cases hf : f k with
      | some msg => simp [runSteps, hf] at h
      | none =>
          simp only [runSteps, hf] at h ⊢
          exact congrArg (a :: ·) (ih (k + 1) h)

lemma runSteps_take (f : ℕ → Option String) (l : List Action) :
    ∀ k, ∃ n, (runSteps f l k).1 = l.take n ∧
      ((runSteps f l k).2 ≠ none → n < l.length) := by
  induction l with
  | nil =>
      intro k
      exact ⟨0, rfl, by simp [runSteps]⟩
  | cons a rest ih =>
      intro k
      cases hf : f k with
      | some msg =>
          refine ⟨0, ?_, ?_⟩ <;> simp [runSteps, hf]
      | none =>
          obtain ⟨n, h1, h2⟩ := ih (k + 1)
          refine ⟨n + 1, ?_, ?_⟩
          · simp [runSteps, hf, h1]
          · simp only [runSteps, hf, List.length_cons]
            intro hs
            exact Nat.succ_lt_succ (h2 hs)

lemma runSteps_mem (f : ℕ → Option String) (l : List Action) (k : ℕ) (a : Action)
    (h : a ∈ (runSteps f l k).1) : a ∈ l := by
  obtain ⟨n, h1, _⟩ := runSteps_take f l k
  rw [h1] at h
  exact List.take_subset n l h

/-! ## Claim C3 -/

lemma simulate_eq_spec (rgb : RGB) (t : String) :
    window_simulate rgb t = simulateSpec rgb t := by
  cases h : colorBlindnessMatrices t with
  | none => simp [window_simulate, simulateSpec, h]
  | some M =>
      simp only [window_simulate, simulateSpec, h, Option.map_some]
      norm_num [multiply, jsIndex_zero, jsIndex_one, jsIndex_two, jmul_comm]

lemma transformElement_supported (t : String)
    (ht : t = "protanopia" ∨ t = "deuteranopia" ∨ t = "tritanopia")
    (el : ElementStyle) :
    transformElement t el =
      some ⟨transformPropSpec t el.color, transformPropSpec t el.backgroundColor⟩ := by
  rcases ht with rfl | rfl | rfl <;>
    by_cases h1 : el.color = "rgba(0, 0, 0, 0)" <;>
      by_cases h2 : el.backgroundColor = "rgba(0, 0, 0, 0)" <;>
        simp [transformElement, transformPropSpec, h1, h2, simulate_eq_spec,
          simulateSpec, matrices_protanopia, matrices_deuteranopia, matrices_tritanopia]

/-- C3: the in-page transform equals the reference vector-matrix multiply
(componentwise `round(255 * v)` with `v i = Σ_j (rgb_j / 255) * M[3*j+i]`,
`M` row-major), and the injected loop applies it per element to the computed
`color` and `backgroundColor` of every element whose computed value is not
`rgba(0, 0, 0, 0)`. -/
theorem c3_transform_and_application :
    (∀ rgb t, window_simulate rgb t = simulateSpec rgb t) ∧
    (∀ t, (t = "protanopia" ∨ t = "deuteranopia" ∨ t = "tritanopia") →
      ∀ els, applySimulation t els =
        some (els.map fun el =>
          ⟨transformPropSpec t el.color, transformPropSpec t el.backgroundColor⟩)) := by
  refine ⟨simulate_eq_spec, fun t ht els => ?_⟩
  induction els with
  | nil => simp [applySimulation]
  | cons el tl ih => simp [applySimulation, ih, transformElement_supported t ht el]

/-- C3, witness: the application part at a concrete one-element page with a
red text color under `deuteranopia`. -/
theorem c3_transform_and_application_witness :
    applySimulation "deuteranopia" [⟨"rgb(255, 0, 0)", "rgba(0, 0, 0, 0)"⟩] =
      some (([⟨"rgb(255, 0, 0)", "rgba(0, 0, 0, 0)"⟩] : List ElementStyle).map fun el =>
        (⟨transformPropSpec "deuteranopia" el.color,
          transformPropSpec "deuteranopia" el.backgroundColor⟩ : ElementStyle)) :=
  c3_transform_and_application.2 "deuteranopia" (Or.inr (Or.inl rfl))
    [⟨"rgb(255, 0, 0)", "rgba(0, 0, 0, 0)"⟩]

/-! ## Claim C2 -/

/-- C2, counterexample: when `page.goto` rejects inside `check_accessibility`,
the handler returns its error response with the browser launched but never
closed — the claim that every launched browser is closed before the handler
returns is false. -/
theorem c2_leak_counterexample :
    (runA11y c2Env c2Args).trace.any isLaunch = true ∧
    Action.closeBrowser ∉ (runA11y c2Env c2Args).trace ∧
    (runA11y c2Env c2Args).response.isError = true := by decide

/-- C2, amended: every browser launched by `simulate_colorblind` is closed
before the handler returns, on success and on a caught error alike; for
`check_accessibility` the browser is closed on every path that reaches the
in-try close (success and the axe-reported-error rethrow), but the catch
block performs no cleanup, so an error between launch and close (here: a
navigation failure at step 4) leaves the launched browser open. -/
theorem c2_browser_lifecycle :
    (∀ env args, (runColorblind env args).trace.any isLaunch = true →
        Action.closeBrowser ∈ (runColorblind env args).trace) ∧
    (∀ env args, (runA11y env args).response.isError = false →
        Action.closeBrowser ∈ (runA11y env args).trace) ∧
    (∀ env args e, (runSteps env.fails (a11yTrySteps args) 0).2 = none →
        env.axe = .errorRes e →
        Action.closeBrowser ∈ (runA11y env args).trace) ∧
    (∀ (args : A11yArgs) (axe : AxeOutcome) (ts : String) (dir : Option String) (msg : String),
        (runA11y ⟨fun k => if k = 4 then some msg else none, axe, ts, dir⟩ args).trace.any
            isLaunch = true ∧
        Action.closeBrowser ∉
          (runA11y ⟨fun k => if k = 4 then some msg else none, axe, ts, dir⟩ args).trace ∧
        (runA11y ⟨fun k => if k = 4 then some msg else none, axe, ts, dir⟩ args).response.isError
          = true) := by
  refine ⟨?_, ?_, ?_, ?_⟩
  · intro env args h
    cases hr : (runSteps env.fails (cbTrySteps env args) 0).2 with
    | none =>
        have h1 := runSteps_none env.fails (cbTrySteps env args) 0 hr
        simp only [runColorblind, hr, h1]
        simp [cbTrySteps]
    | some msg =>
        simp only [runColorblind, hr] at h ⊢
        by_cases he : (runSteps env.fails (cbTrySteps env args) 0).1.isEmpty
        · rw [List.isEmpty_iff] at he
          simp [he] at h
        · simp [he]
  · intro env args h
    cases hr : (runSteps env.fails (a11yTrySteps args) 0).2 with
    | some msg => simp [runA11y, hr] at h
    | none =>
        cases ha : env.axe with
        | errorRes e => simp [runA11y, hr, ha] at h
        | ok res =>
            have h1 := runSteps_none env.fails (a11yTrySteps args) 0 hr
            simp only [runA11y, hr, ha, h1]
            simp [a11yTrySteps]
  · intro env args e hr ha
    have h1 := runSteps_none env.fails (a11yTrySteps args) 0 hr
    simp only [runA11y, hr, ha, h1]
    simp [a11yTrySteps]
  · intro args axe ts dir msg
    refine ⟨?_, ?_, ?_⟩ <;>
      simp [runA11y, runSteps, a11yTrySteps, isLaunch]

/-- C2, witness: the amended lifecycle theorem applied to concrete
environments and arguments — the colorblind close conjunct, the
accessibility close on the axe-reported-error rethrow path, and the leak
conjunct at a failing navigation. -/
theorem c2_browser_lifecycle_witness :
    ((runColorblind ⟨fun _ => none, .ok ⟨[], [], [], []⟩, "t", none⟩
        ⟨"example.com", "protanopia", none, none⟩).trace.any isLaunch = true →
      Action.closeBrowser ∈
        (runColorblind ⟨fun _ => none, .ok ⟨[], [], [], []⟩, "t", none⟩
          ⟨"example.com", "protanopia", none, none⟩).trace) ∧
    Action.closeBrowser ∈
      (runA11y ⟨fun _ => none, .errorRes "axe failed", "t", none⟩
        ⟨"example.com", none, macUA⟩).trace ∧
    (runA11y ⟨fun k => if k = 4 then some "boom" else none, .ok ⟨[], [], [], []⟩, "t", none⟩
        ⟨"example.com", none, macUA⟩).trace.any isLaunch = true :=
  ⟨c2_browser_lifecycle.1 ⟨fun _ => none, .ok ⟨[], [], [], []⟩, "t", none⟩
      ⟨"example.com", "protanopia", none, none⟩,
   c2_browser_lifecycle.2.2.1 ⟨fun _ => none, .errorRes "axe failed", "t", none⟩
     ⟨"example.com", none, macUA⟩ "axe failed" rfl rfl,
   (c2_browser_lifecycle.2.2.2 ⟨"example.com", none, macUA⟩ (.ok ⟨[], [], [], []⟩) "t" none
      "boom").1⟩

/-! ## Claim C5 -/

lemma runSteps_some_mem_dropLast (f : ℕ → Option String) (msg : String) (l : List Action) :
    ∀ k, (runSteps f l k).2 = some msg →
      ∀ a ∈ (runSteps f l k).1, a ∈ l.dropLast := by
  induction l with
  | nil => intro k h; simp [runSteps] at h
  | cons b rest ih =>
      intro k h a ha
      cases hf : f k with
      | some m => simp [runSteps, hf] at ha
      | none =>
          simp only [runSteps, hf] at h ha
          cases rest with
          | nil => simp [runSteps] at h
          | cons c rest' =>
              rcases List.mem_cons.mp ha with rfl | ha'
              · simp
              · simpa using Or.inr (ih (k + 1) h a ha')

lemma cbTrySteps_nodup (env : ServerEnv) (args : CBArgs) : (cbTrySteps env args).Nodup := by
  simp [cbTrySteps]

lemma a11yTrySteps_nodup (args : A11yArgs) : (a11yTrySteps args).Nodup := by
  simp [a11yTrySteps]

lemma closeBrowser_not_mem_cb_dropLast (env : ServerEnv) (args : CBArgs) :
    Action.closeBrowser ∉ (cbTrySteps env args).dropLast := by
  simp [cbTrySteps]

/-- C5: after successful validation, every error raised during handling is
caught exactly once: the handler returns a response with `isError` true whose
single text content is the fixed prefix followed by the error message, its
trace repeats no operation (no retry), and the handler resolves with a
response instead of propagating the exception. -/
theorem c5_single_catch_and_report :
    (∀ env args msg, (runSteps env.fails (cbTrySteps env args) 0).2 = some msg →
        (runColorblind env args).response =
          ⟨[⟨"text", "Error simulating color blindness: " ++ msg⟩], true⟩ ∧
        (runColorblind env args).trace.Nodup) ∧
    (∀ env args msg, (runSteps env.fails (a11yTrySteps args) 0).2 = some msg →
        (runA11y env args).response =
          ⟨[⟨"text", "Error analyzing URL: " ++ msg⟩], true⟩ ∧
        (runA11y env args).trace.Nodup) ∧
    (∀ env args e, (runSteps env.fails (a11yTrySteps args) 0).2 = none →
        env.axe = .errorRes e →
        (runA11y env args).response = ⟨[⟨"text", "Error analyzing URL: " ++ e⟩], true⟩) ∧
    (∀ env req a u t, req.arguments = some a → a.url = .vstr u → a.type = .vstr t →
        ∃ resp, (handleColorBlindSimulation env req).2 = Except.ok resp) ∧
    (∀ env req a u, req.arguments = some a → a.url = .vstr u →
        ∃ resp, (handleAccessibilityCheck env req).2 = Except.ok resp) := by
  refine ⟨?_, ?_, ?_, ?_, ?_⟩
  · intro env args msg h
    refine ⟨by simp [runColorblind, h], ?_⟩
    obtain ⟨n, h1, _⟩ := runSteps_take env.fails (cbTrySteps env args) 0
    simp only [runColorblind, h]
    by_cases he : (runSteps env.fails (cbTrySteps env args) 0).1.isEmpty
    · rw [List.isEmpty_iff] at he
      simp [he]
    · simp only [he, Bool.false_eq_true, if_false]
      rw [List.nodup_append]
      refine ⟨?_, List.nodup_singleton _, ?_⟩
      · rw [h1]
        exact (List.take_sublist n _).nodup (cbTrySteps_nodup env args)
      · intro a haa hac
        have hae : a = Action.closeBrowser := List.mem_singleton.mp hac
        subst hae
        exact closeBrowser_not_mem_cb_dropLast env args
          (runSteps_some_mem_dropLast env.fails msg (cbTrySteps env args) 0 h _ haa)
  · intro env args msg h
    refine ⟨by simp [runA11y, h], ?_⟩
    obtain ⟨n, h1, _⟩ := runSteps_take env.fails (a11yTrySteps args) 0
    simp only [runA11y, h]
    rw [h1]
    exact (List.take_sublist n _).nodup (a11yTrySteps_nodup args)
  · intro env args e h ha
    simp [runA11y, h, ha]
  · intro env req a u t ha hu ht
    simp only [handleColorBlindSimulation, ha, hu, ht]
    exact ⟨_, rfl⟩
  · intro env req a u ha hu
    simp only [handleAccessibilityCheck, ha, hu]
    exact ⟨_, rfl⟩

/-- C5, witness: a colorblind invocation whose launch rejects returns the
caught error report, and a validated request resolves with a response. -/
theorem c5_single_catch_and_report_witness :
    (runColorblind ⟨fun _ => some "spawn chrome ENOENT", .ok ⟨[], [], [], []⟩, "t", none⟩
        ⟨"example.com", "protanopia", none, none⟩).response =
      ⟨[⟨"text", "Error simulating color blindness: " ++ "spawn chrome ENOENT"⟩], true⟩ ∧
    ∃ resp, (handleAccessibilityCheck baseEnv
        ⟨"check_accessibility", some ⟨.vstr "example.com", .vundefined, .vundefined, .vundefined, .vundefined⟩⟩).2 =
      Except.ok resp :=
  ⟨(c5_single_catch_and_report.1
      ⟨fun _ => some "spawn chrome ENOENT", .ok ⟨[], [], [], []⟩, "t", none⟩
      ⟨"example.com", "protanopia", none, none⟩ "spawn chrome ENOENT" rfl).1,
   c5_single_catch_and_report.2.2.2.2 baseEnv
     ⟨"check_accessibility", some ⟨.vstr "example.com", .vundefined, .vundefined, .vundefined, .vundefined⟩⟩
     ⟨.vstr "example.com", .vundefined, .vundefined, .vundefined, .vundefined⟩ "example.com" rfl rfl⟩

/-! ## Claim C4 -/

/-- C4: the ListTools response names exactly `check_accessibility` and
`simulate_colorblind`, in that order, and a CallTool request for any other
tool name fails with `MethodNotFound` before any browser operation. -/
theorem c4_exactly_two_tools :
    listedTools.map (fun d => d.name) = ["check_accessibility", "simulate_colorblind"] ∧
    ∀ env req, req.name ≠ "check_accessibility" → req.name ≠ "simulate_colorblind" →
      handleCallTool env req =
        ([], .error ⟨.methodNotFound, "Unknown tool: " ++ req.name⟩) := by
  refine ⟨rfl, fun env req h1 h2 => ?_⟩
  simp [handleCallTool, h1, h2]

/-- C4, witness: the dispatch theorem applied to the unknown tool name
`analyze_url` (the name the README documents but the code does not expose). -/
theorem c4_exactly_two_tools_witness :
    handleCallTool baseEnv ⟨"analyze_url", none⟩ =
      ([], .error ⟨.methodNotFound, "Unknown tool: " ++ "analyze_url"⟩) :=
  c4_exactly_two_tools.2 baseEnv ⟨"analyze_url", none⟩ (by decide) (by decide)

/-! ## Claim C6 -/

/-- C6: each operation returns a structured result on success: one text
content item whose JSON body carries the documented fields —
`check_accessibility`: `url`, `timestamp`, `violations` (each violation with
`impact`, `description`, `help`, `helpUrl` and `nodes` of `html` and
`failureSummary`) and the numeric counts `passes`, `inapplicable`,
`incomplete`; `simulate_colorblind`: `url`, `type`, `outputPath`,
`timestamp`, `message`. -/
theorem c6_structured_results :
    (∀ env args res, (runSteps env.fails (a11yTrySteps args) 0).2 = none →
        env.axe = .ok res →
        ∃ j : Json, (runA11y env args).response = ⟨[⟨"text", j.stringify⟩], false⟩ ∧
          j.get? "url" = some (.str args.url) ∧
          j.get? "timestamp" = some (.str env.timestamp) ∧
          j.get? "violations" = some (.arr (res.violations.map violationJson)) ∧
          j.get? "passes" = some (.num res.passes.length) ∧
          j.get? "inapplicable" = some (.num res.inapplicable.length) ∧
          j.get? "incomplete" = some (.num res.incomplete.length)) ∧
    (∀ v, (violationJson v).get? "impact" = some (.str v.impact) ∧
        (violationJson v).get? "description" = some (.str v.description) ∧
        (violationJson v).get? "help" = some (.str v.help) ∧
        (violationJson v).get? "helpUrl" = some (.str v.helpUrl) ∧
        (violationJson v).get? "nodes" = some (.arr (v.nodes.map nodeJson))) ∧
    (∀ n, (nodeJson n).get? "html" = some (.str n.html) ∧
        (nodeJson n).get? "failureSummary" = some (.str n.failureSummary)) ∧
    (∀ env args, (runSteps env.fails (cbTrySteps env args) 0).2 = none →
        ∃ j : Json, (runColorblind env args).response = ⟨[⟨"text", j.stringify⟩], false⟩ ∧
          j.get? "url" = some (.str args.url) ∧
          j.get? "type" = some (.str args.type) ∧
          j.get? "outputPath" = some (.str (cbOutputPath env args)) ∧
          j.get? "timestamp" = some (.str env.timestamp) ∧
          j.get? "message" =
            some (.str ("Screenshot saved with " ++ args.type ++ " simulation"))) := by
  refine ⟨?_, ?_, ?_, ?_⟩
  · intro env args res h ha
    exact ⟨a11yBody env args res, by simp [runA11y, h, ha], rfl, rfl, rfl, rfl, rfl, rfl⟩
  · intro v
    exact ⟨rfl, rfl, rfl, rfl, rfl⟩
  · intro n
    exact ⟨rfl, rfl⟩
  · intro env args h
    exact ⟨cbBody env args, by simp [runColorblind, h], rfl, rfl, rfl, rfl, rfl⟩

/-- C6, witness: both success shapes at concrete arguments in the benign
environment. -/
theorem c6_structured_results_witness :
    (∃ j : Json, (runA11y baseEnv ⟨"example.com", none, macUA⟩).response =
        ⟨[⟨"text", j.stringify⟩], false⟩ ∧
      j.get? "url" = some (.str "example.com") ∧
      j.get? "timestamp" = some (.str baseEnv.timestamp) ∧
      j.get? "violations" = some (.arr (List.map violationJson [])) ∧
      j.get? "passes" = some (.num (List.length ([] : List Unit))) ∧
      j.get? "inapplicable" = some (.num (List.length ([] : List Unit))) ∧
      j.get? "incomplete" = some (.num (List.length ([] : List Unit)))) ∧
    (∃ j : Json, (runColorblind baseEnv ⟨"example.com", "tritanopia", none, none⟩).response =
        ⟨[⟨"text", j.stringify⟩], false⟩ ∧
      j.get? "url" = some (.str "example.com") ∧
      j.get? "type" = some (.str "tritanopia") ∧
      j.get? "outputPath" =
        some (.str (cbOutputPath baseEnv ⟨"example.com", "tritanopia", none, none⟩)) ∧
      j.get? "timestamp" = some (.str baseEnv.timestamp) ∧
      j.get? "message" =
        some (.str ("Screenshot saved with " ++ "tritanopia" ++ " simulation"))) :=
  ⟨c6_structured_results.1 baseEnv ⟨"example.com", none, macUA⟩ ⟨[], [], [], []⟩ rfl rfl,
   c6_structured_results.2.2.2 baseEnv ⟨"example.com", "tritanopia", none, none⟩ rfl⟩

/-! ## Claims C7 and C8: trace decomposition lemmas -/

lemma runColorblind_trace_mem (env : ServerEnv) (args : CBArgs) (a : Action)
    (h : a ∈ (runColorblind env args).trace) :
    a ∈ cbTrySteps env args ∨ a = Action.closeBrowser := by
  cases hr : (runSteps env.fails (cbTrySteps env args) 0).2 with
  | none =>
      simp only [runColorblind, hr] at h
      exact Or.inl (runSteps_mem _ _ _ _ h)
  | some msg =>
      simp only [runColorblind, hr] at h
      by_cases he : (runSteps env.fails (cbTrySteps env args) 0).1.isEmpty
      · simp only [he, if_true] at h
        exact Or.inl (runSteps_mem _ _ _ _ h)
      · simp only [he, Bool.false_eq_true, if_false, List.mem_append,
          List.mem_singleton] at h
        rcases h with h | h
        · exact Or.inl (runSteps_mem _ _ _ _ h)
        · exact Or.inr h

lemma runA11y_trace_mem (env : ServerEnv) (args : A11yArgs) (a : Action)
    (h : a ∈ (runA11y env args).trace) : a ∈ a11yTrySteps args := by
  cases hr : (runSteps env.fails (a11yTrySteps args) 0).2 with
  | some msg =>
      simp only [runA11y, hr] at h
      exact runSteps_mem _ _ _ _ h
  | none =>
      cases ha : env.axe with
      | errorRes e =>
          simp only [runA11y, hr, ha] at h
          exact runSteps_mem _ _ _ _ h
      | ok res =>
          simp only [runA11y, hr, ha] at h
          exact runSteps_mem _ _ _ _ h

/-! ## Claim C7 -/

/-- C7: both handlers launch the browser headless (`headless: true`), the
colorblind handler navigates with `networkidle2` under a 120000 ms timeout,
and the accessibility handler navigates with `domcontentloaded` under a
30000 ms timeout; these are the only launch and navigation configurations
that can appear in any trace. -/
theorem c7_headless_bounded_navigation :
    cbLaunchOptions.headless = true ∧ a11yLaunchOptions.headless = true ∧
    (∀ env args, Action.launch cbLaunchOptions ∈ cbTrySteps env args ∧
        Action.goto (rewriteUrl args.url) ⟨"networkidle2", 120000⟩ ∈ cbTrySteps env args) ∧
    (∀ args, Action.launch a11yLaunchOptions ∈ a11yTrySteps args ∧
        Action.goto (rewriteUrl args.url) ⟨"domcontentloaded", 30000⟩ ∈ a11yTrySteps args) ∧
    (∀ env args o, Action.launch o ∈ (runColorblind env args).trace → o.headless = true) ∧
    (∀ env args u o, Action.goto u o ∈ (runColorblind env args).trace →
        o = ⟨"networkidle2", 120000⟩) ∧
    (∀ env args o, Action.launch o ∈ (runA11y env args).trace → o.headless = true) ∧
    (∀ env args u o, Action.goto u o ∈ (runA11y env args).trace →
        o = ⟨"domcontentloaded", 30000⟩) := by
  refine ⟨rfl, rfl, ?_, ?_, ?_, ?_, ?_, ?_⟩
  · intro env args
    constructor <;> simp [cbTrySteps]
  · intro args
    constructor <;> simp [a11yTrySteps]
  · intro env args o h
    rcases runColorblind_trace_mem env args _ h with hm | hm
    · simp [cbTrySteps] at hm
      subst hm; rfl
    · cases hm
  · intro env args u o h
    rcases runColorblind_trace_mem env args _ h with hm | hm
    · simp [cbTrySteps] at hm
      exact hm.2
    · cases hm
  · intro env args o h
    have hm := runA11y_trace_mem env args _ h
    simp [a11yTrySteps] at hm
    subst hm; rfl
  · intro env args u o h
    have hm := runA11y_trace_mem env args _ h
    simp [a11yTrySteps] at hm
    exact hm.2

/-- C7, witness: the launch and navigation steps of concrete invocations,
with the configuration facts instantiated. -/
theorem c7_headless_bounded_navigation_witness :
    (Action.launch cbLaunchOptions ∈ cbTrySteps baseEnv ⟨"example.com", "protanopia", none, none⟩ ∧
      Action.goto (rewriteUrl "example.com") ⟨"networkidle2", 120000⟩ ∈
        cbTrySteps baseEnv ⟨"example.com", "protanopia", none, none⟩) ∧
    cbLaunchOptions.headless = true ∧
    (Action.launch cbLaunchOptions ∈
        (runColorblind baseEnv ⟨"example.com", "protanopia", none, none⟩).trace →
      cbLaunchOptions.headless = true) :=
  ⟨c7_headless_bounded_navigation.2.2.1 baseEnv ⟨"example.com", "protanopia", none, none⟩,
   c7_headless_bounded_navigation.1,
   c7_headless_bounded_navigation.2.2.2.2.1 baseEnv
     ⟨"example.com", "protanopia", none, none⟩ cbLaunchOptions⟩

/-! ## Claim C8 -/

lemma rewriteUrl_eq_spec (u : String) : rewriteUrl u = rewriteUrlSpec u := by
  simp only [rewriteUrl, rewriteUrlSpec, urlMatchLen, dropScheme, dropWww]
  by_cases h1 : ("https://".data).isPrefixOf u.data = true
  · simp only [h1, if_true]
    by_cases h2 : ("www.".data).isPrefixOf (u.data.drop 8) = true <;>
      simp [h2, List.drop_drop]
  · simp only [h1, if_false]
    by_cases h2 : ("http://".data).isPrefixOf u.data = true
    · simp only [h2, if_true]
      by_cases h3 : ("www.".data).isPrefixOf (u.data.drop 7) = true <;>
        simp [h1, h3, List.drop_drop]
    · simp only [h2, if_false]
      by_cases h3 : "www.".data <+: u.data <;>
        simp [h1, h2, h3, List.drop_drop]

/-- C8: both handlers navigate to the argument with any leading `http://` or
`https://` scheme and any leading `www.` replaced by the fixed prefix
`https://www.` (so a host given without `www.` is rewritten to a different
host, as the concrete `example.com` case shows), while the `url` field of
each success body is the original unmodified argument. -/
theorem c8_url_rewrite_and_echo :
    (∀ u, rewriteUrl u = rewriteUrlSpec u) ∧
    (∀ env args u o, Action.goto u o ∈ (runColorblind env args).trace →
        u = rewriteUrl args.url) ∧
    (∀ env args u o, Action.goto u o ∈ (runA11y env args).trace →
        u = rewriteUrl args.url) ∧
    rewriteUrl "example.com" = "https://www.example.com" ∧
    (∀ env args res, (runSteps env.fails (a11yTrySteps args) 0).2 = none →
        env.axe = .ok res →
        (runA11y env args).response.content =
          [⟨"text", (a11yBody env args res).stringify⟩] ∧
        (a11yBody env args res).get? "url" = some (.str args.url)) ∧
    (∀ env args, (runSteps env.fails (cbTrySteps env args) 0).2 = none →
        (runColorblind env args).response.content =
          [⟨"text", (cbBody env args).stringify⟩] ∧
        (cbBody env args).get? "url" = some (.str args.url)) := by
  refine ⟨rewriteUrl_eq_spec, ?_, ?_, by decide, ?_, ?_⟩
  · intro env args u o h
    rcases runColorblind_trace_mem env args _ h with hm | hm
    · simp [cbTrySteps] at hm
      exact hm.1
    · cases hm
  · intro env args u o h
    have hm := runA11y_trace_mem env args _ h
    simp [a11yTrySteps] at hm
    exact hm.1
  · intro env args res h ha
    exact ⟨by simp [runA11y, h, ha], rfl⟩
  · intro env args h
    exact ⟨by simp [runColorblind, h], rfl⟩

/-- C8, witness: concrete hosts with and without a scheme, and the echoed
original in a concrete success body. -/
theorem c8_url_rewrite_and_echo_witness :
    rewriteUrl "http://example.com/a" = rewriteUrlSpec "http://example.com/a" ∧
    ((runColorblind baseEnv ⟨"example.com", "protanopia", none, none⟩).response.content =
        [⟨"text", (cbBody baseEnv ⟨"example.com", "protanopia", none, none⟩).stringify⟩] ∧
      (cbBody baseEnv ⟨"example.com", "protanopia", none, none⟩).get? "url" =
        some (.str "example.com")) :=
  ⟨c8_url_rewrite_and_echo.1 "http://example.com/a",
   c8_url_rewrite_and_echo.2.2.2.2.2 baseEnv ⟨"example.com", "protanopia", none, none⟩ rfl⟩

/-! ## Claim C10 -/

/-- C10: `parseColor` is total (a plain function into `RGB`, it can throw
nothing), and whenever the lowercased, whitespace-free input starts with none
of `rgb(`, `rgba(` and `#`, it returns black `(0, 0, 0)`. -/
theorem c10_parseColor_default (s : String)
    (h1 : jsStartsWith (normalizeColor s) "rgb(" = false)
    (h2 : jsStartsWith (normalizeColor s) "rgba(" = false)
    (h3 : jsStartsWith (normalizeColor s) "#" = false) :
    parseColor s = ⟨some 0, some 0, some 0⟩ := by
  simp [parseColor, h1, h2, h3]

/-- C10, witness: the named color `blue` is not recognized and parses to
black. -/
theorem c10_parseColor_default_witness :
    parseColor "blue" = ⟨some 0, some 0, some 0⟩ :=
  c10_parseColor_default "blue" rfl rfl rfl

/-! ## Claim C9 -/

/-- C9: parameter validation precedes the browser: a `simulate_colorblind`
call with absent arguments or a non-string `url` or `type` returns
`InvalidParams` with message `URL and type parameters are required` and an
empty action trace (no browser launched), and a `check_accessibility` call
with absent arguments or a non-string `url` returns `InvalidParams` with
message `URL parameter is required` and an empty action trace. -/
theorem c9_validation_before_browser :
    (∀ env req, req.arguments = none →
        handleColorBlindSimulation env req =
          ([], .error ⟨.invalidParams, "URL and type parameters are required"⟩)) ∧
    (∀ env req a, req.arguments = some a →
        ((∀ s, a.url ≠ .vstr s) ∨ (∀ s, a.type ≠ .vstr s)) →
        handleColorBlindSimulation env req =
          ([], .error ⟨.invalidParams, "URL and type parameters are required"⟩)) ∧
    (∀ env req, req.arguments = none →
        handleAccessibilityCheck env req =
          ([], .error ⟨.invalidParams, "URL parameter is required"⟩)) ∧
    (∀ env req a, req.arguments = some a → (∀ s, a.url ≠ .vstr s) →
        handleAccessibilityCheck env req =
          ([], .error ⟨.invalidParams, "URL parameter is required"⟩)) := by
  refine ⟨?_, ?_, ?_, ?_⟩
  · intro env req h
    simp [handleColorBlindSimulation, h]
  · intro env req a ha hv
    rcases hv with hv | hv
    · cases hu : a.url with
      | vstr u => exact absurd hu (hv u)
      | vnum q => simp [handleColorBlindSimulation, ha, hu]
      | vbool b => simp [handleColorBlindSimulation, ha, hu]
      | vnull => simp [handleColorBlindSimulation, ha, hu]
      | vundefined => simp [handleColorBlindSimulation, ha, hu]
    · cases htp : a.type with
      | vstr t => exact absurd htp (hv t)
      | vnum q => cases hu : a.url <;> simp [handleColorBlindSimulation, ha, hu, htp]
      | vbool b => cases hu : a.url <;> simp [handleColorBlindSimulation, ha, hu, htp]
      | vnull => cases hu : a.url <;> simp [handleColorBlindSimulation, ha, hu, htp]
      | vundefined => cases hu : a.url <;> simp [handleColorBlindSimulation, ha, hu, htp]
  · intro env req h
    simp [handleAccessibilityCheck, h]
  · intro env req a ha hv
    cases hu : a.url with
    | vstr u => exact absurd hu (hv u)
    | vnum q => simp [handleAccessibilityCheck, ha, hu]
    | vbool b => simp [handleAccessibilityCheck, ha, hu]
    | vnull => simp [handleAccessibilityCheck, ha, hu]
    | vundefined => simp [handleAccessibilityCheck, ha, hu]

/-- C9, witness: absent arguments for `simulate_colorblind`, and a numeric
`url` for `check_accessibility`, both rejected with an empty trace. -/
theorem c9_validation_before_browser_witness :
    handleColorBlindSimulation baseEnv ⟨"simulate_colorblind", none⟩ =
      ([], .error ⟨.invalidParams, "URL and type parameters are required"⟩) ∧
    handleAccessibilityCheck baseEnv
        ⟨"check_accessibility", some ⟨.vnum 3, .vundefined, .vundefined, .vundefined, .vundefined⟩⟩ =
      ([], .error ⟨.invalidParams, "URL parameter is required"⟩) :=
  ⟨c9_validation_before_browser.1 baseEnv ⟨"simulate_colorblind", none⟩ rfl,
   c9_validation_before_browser.2.2.2 baseEnv
     ⟨"check_accessibility", some ⟨.vnum 3, .vundefined, .vundefined, .vundefined, .vundefined⟩⟩
     ⟨.vnum 3, .vundefined, .vundefined, .vundefined, .vundefined⟩ rfl
     (fun s h => by cases h)⟩

end WebA11y
